import Mathlib

/-!
Shallow embedding of the core of `src/main.py` (Smart Employee Data Finder):
the fallback rule engine `generate_fallback_query`, the response-extraction
step `extract_sql_from_response` (including a small backtracking matcher for
the regular expressions it uses), the synthesizer `generate_sql_query`, and
the request handler `process_query`.

Conventions of the embedding:
* Python strings are Lean `String`s (ASCII inputs; the per-character
  case-mapping functions below implement Python upper/lower-casing on the
  ASCII range, which is the range the program's needles and templates use).
* A Python function that can return `None` or raise is embedded with an
  `Option`/`Except` result; `none` on `generate_fallback_query` is Python's
  implicit `return None`, `none` on `extract_sql_from_response` is the
  `raise Exception(...)` at its end.
* External collaborators (the Groq chat-completion call, the database) are
  passed in as explicit parameters: the model call's outcome is an
  `Option String` (`none` = the call raised, `some r` = the response text),
  the database is a function `String → Except String (List Row)`.
-/

namespace SmartFinder

/-- Python whitespace class `\s` restricted to ASCII: space, tab, newline,
carriage return, vertical tab, form feed. -/
def isWs (c : Char) : Bool :=
  c == ' ' || c == '\t' || c == '\n' || c == '\r' || c == '\x0b' || c == '\x0c'

/-- Whether `pre` is a prefix of `hay` (character lists). -/
def charStartsWith : List Char → List Char → Bool
  | _, [] => true
  | [], _ :: _ => false
  | a :: as, b :: bs => a == b && charStartsWith as bs

/-- Whether `needle` occurs as a contiguous run inside `hay` (character lists). -/
def charContains : List Char → List Char → Bool
  | [], needle => needle.isEmpty
  | h :: t, needle => charStartsWith (h :: t) needle || charContains t needle

/-- Python's `needle in hay` on strings. -/
def pyIn (needle hay : String) : Bool :=
  charContains hay.data needle.data

/-- Python's `s.startswith(p)`. -/
def pyStartsWith (s p : String) : Bool :=
  charStartsWith s.data p.data

/-- Python `str.lower` on one character (ASCII range). -/
def pyLowerChar (c : Char) : Char :=
  if 65 ≤ c.toNat ∧ c.toNat ≤ 90 then Char.ofNat (c.toNat + 32) else c

/-- Python `str.upper` on one character (ASCII range). -/
def pyUpperChar (c : Char) : Char :=
  if 97 ≤ c.toNat ∧ c.toNat ≤ 122 then Char.ofNat (c.toNat - 32) else c

/-- Python's `s.lower()`. -/
def pyLower (s : String) : String :=
  ⟨s.data.map pyLowerChar⟩

/-- Python's `s.upper()`. -/
def pyUpper (s : String) : String :=
  ⟨s.data.map pyUpperChar⟩

/-- Python's `s.strip()`: drop leading and trailing whitespace. -/
def pyStrip (s : String) : String :=
  ⟨((s.data.dropWhile isWs).reverse.dropWhile isWs).reverse⟩

/-- Python's `s.rstrip(';')`: drop every trailing semicolon. -/
def rstripSemi (s : String) : String :=
  ⟨((s.data.reverse.dropWhile (fun c => c == ';'))).reverse⟩

/-- The effect of `re.sub(r'\s+', ' ', s)`: each maximal whitespace run
becomes a single space.  The flag tracks whether the previous character was
part of a run already replaced. -/
def normWsAux : Bool → List Char → List Char
  | _, [] => []
  | prevWs, c :: t =>
    if isWs c then
      if prevWs then normWsAux true t else ' ' :: normWsAux true t
    else c :: normWsAux false t

/-- `re.sub(r'\s+', ' ', s)` on strings. -/
def normWs (s : String) : String :=
  ⟨normWsAux false s.data⟩

/-- First maximal digit run of a list of characters, if any. -/
def firstNumberAux : List Char → Option String
  | [] => none
  | c :: t =>
    if c.isDigit then some ⟨c :: t.takeWhile Char.isDigit⟩
    else firstNumberAux t

/-- `re.findall(r'\d+', s)[0]` when it exists: the first maximal run of
digits anywhere in `s` (Python's `findall` lists the maximal runs in order;
the code only reads index 0). -/
def firstNumber (s : String) : Option String :=
  firstNumberAux s.data

/-- `generate_fallback_query` from `src/main.py`: the ordered pattern-match
rule chain.  `none` is Python's implicit `return None`, reached when the
`"more than" and "years"` branch is selected but the input holds no digit
run (the branch body has no `return` in that case and no later branch runs). -/
def generate_fallback_query (natural_language_query : String) : Option String :=
  let query_lower := pyLower natural_language_query
  if (pyIn "all employees" query_lower || pyIn "show all" query_lower) &&
      !(["sql", "python", "java", "aws", "javascript"].any
          (fun skill => pyIn skill query_lower)) then
    some "SELECT * FROM employees;"
  else if pyIn "sql" query_lower &&
      (pyIn "skills" query_lower || pyIn "skill" query_lower ||
       pyIn "know" query_lower || pyIn "with" query_lower) then
    some "SELECT * FROM employees WHERE skills ILIKE '%SQL%';"
  else if pyIn "javascript" query_lower then
    some "SELECT * FROM employees WHERE skills ILIKE '%JavaScript%';"
  else if pyIn "java" query_lower && !(pyIn "javascript" query_lower) then
    some "SELECT * FROM employees WHERE (skills ILIKE '%Java,%' OR skills ILIKE '%Java %' OR skills LIKE '%Java' OR skills LIKE 'Java%');"
  else if pyIn "python" query_lower &&
      (pyIn "experience" query_lower || pyIn "years" query_lower) then
    match firstNumber natural_language_query with
    | some years =>
      some ("SELECT * FROM employees WHERE skills ILIKE '%Python%' AND experience_years > " ++ years ++ ";")
    | none => some "SELECT * FROM employees WHERE skills ILIKE '%Python%';"
  else if pyIn "more than" query_lower && pyIn "years" query_lower then
    match firstNumber natural_language_query with
    | some years =>
      some ("SELECT * FROM employees WHERE experience_years > " ++ years ++ ";")
    | none => none
  else if pyIn "python" query_lower then
    some "SELECT * FROM employees WHERE skills ILIKE '%Python%';"
  else if pyIn "sql" query_lower then
    some "SELECT * FROM employees WHERE skills ILIKE '%SQL%';"
  else if pyIn "aws" query_lower then
    some "SELECT * FROM employees WHERE skills ILIKE '%AWS%';"
  else
    some "SELECT * FROM employees;"

/-! ### A small backtracking matcher for the regular expressions of
`extract_sql_from_response`.

The patterns only use: literals (compiled with `re.IGNORECASE`), character
classes (`\s`, `[^;]`, `.` under `re.DOTALL`), greedy `*`/`+`/`?`, the lazy
`*?`, the alternation `(?:\n|$)`, and one capturing group that is always a
prefix of the whole match.  The matcher below implements exactly the
backtracking priority Python's `re` uses: alternation tries the left arm
first, a greedy star tries another iteration before matching empty, a lazy
star tries empty first. -/

/-- Regular-expression syntax used by the extraction patterns. -/
inductive RE where
  /-- one character satisfying the class -/
  | cls : (Char → Bool) → RE
  /-- the empty pattern -/
  | eps : RE
  /-- concatenation -/
  | cat : RE → RE → RE
  /-- alternation, left arm preferred -/
  | alt : RE → RE → RE
  /-- greedy Kleene star -/
  | starG : RE → RE
  /-- lazy Kleene star -/
  | starL : RE → RE
  /-- zero-width assertion on the remaining input -/
  | look : (List Char → Bool) → RE

/-- Backtracking matcher in continuation-passing style: `run fuel r s k`
returns the first value (in the backtracking priority order above) that the
continuation `k` produces on a suffix left over after `r` matched a prefix
of `s`.  `fuel` bounds the recursion depth; every call below passes it a
depth that is ample for the inputs the program feeds it. -/
def run : Nat → RE → List Char → (List Char → Option (List Char)) → Option (List Char)
  | 0, _, _, _ => none
  | _ + 1, RE.eps, s, k => k s
  | _ + 1, RE.look p, s, k => if p s then k s else none
  | _ + 1, RE.cls p, s, k =>
    match s with
    | [] => none
    | c :: t => if p c then k t else none
  | fuel + 1, RE.cat a b, s, k => run fuel a s (fun s1 => run fuel b s1 k)
  | fuel + 1, RE.alt a b, s, k =>
    match run fuel a s k with
    | some r => some r
    | none => run fuel b s k
  | fuel + 1, RE.starG r, s, k =>
    match run fuel r s (fun s1 => run fuel (RE.starG r) s1 k) with
    | some res => some res
    | none => k s
  | fuel + 1, RE.starL r, s, k =>
    match k s with
    | some res => some res
    | none => run fuel r s (fun s1 => run fuel (RE.starL r) s1 k)

/-- Depth budget handed to `run`: generous for every string the program
matches (each consumed character costs a constant number of levels, plus the
size of the pattern). -/
def engineFuel (s : List Char) : Nat :=
  1000 + 10 * s.length

/-- One character matched case-insensitively (`re.IGNORECASE`). -/
def ciChar (c : Char) : RE :=
  RE.cls (fun x => pyLowerChar x == pyLowerChar c)

/-- A literal string matched case-insensitively. -/
def ciLit (s : String) : RE :=
  s.data.foldr (fun c r => RE.cat (ciChar c) r) RE.eps

/-- A literal string matched exactly (no `re.IGNORECASE`). -/
def exLit (s : String) : RE :=
  s.data.foldr (fun c r => RE.cat (RE.cls (fun x => x == c)) r) RE.eps

/-- `\s` -/
def wsCls : RE := RE.cls isWs

/-- `\s+` -/
def wsPlus : RE := RE.cat wsCls (RE.starG wsCls)

/-- `[^;]` -/
def notSemi : RE := RE.cls (fun c => !(c == ';'))

/-- `.` under `re.DOTALL` -/
def anyChar : RE := RE.cls (fun _ => true)

/-- greedy `?` -/
def opt (r : RE) : RE := RE.alt r RE.eps

/-- Python's `$` without `re.MULTILINE`: end of string, or just before a
final newline. -/
def endAnchor : RE := RE.look (fun s => s.isEmpty || s == ['\n'])

/-- `re.findall(p, text)[0]` for a pattern `p` that is one capturing group
`grp` followed by an uncaptured `suffix`: scan start positions left to
right; at the first position where `grp ++ suffix` matches, return the text
the group consumed.  The scan counter is the remaining number of start
positions. -/
def findFirstAux (grp suffix : RE) : Nat → List Char → Option String
  | n, s =>
    match run (engineFuel s) grp s
        (fun rest =>
          match run (engineFuel s) suffix rest (fun r2 => some r2) with
          | some _ => some rest
          | none => none) with
    | some rest => some ⟨s.take (s.length - rest.length)⟩
    | none =>
      match n, s with
      | n' + 1, _ :: t => findFirstAux grp suffix n' t
      | _, _ => none

/-- First match (group capture) of `grp ++ suffix` in `text`, if any. -/
def findFirst (grp suffix : RE) (text : String) : Option String :=
  findFirstAux grp suffix text.data.length text.data

/-- `re.sub(pat, repl, s)`: scan left to right; where `pat` matches (and
consumes at least one character) emit `repl` and resume after the match,
otherwise copy one character.  The counter bounds the number of scan steps. -/
def subAux (pat : RE) (repl : List Char) : Nat → List Char → List Char
  | _, [] => []
  | 0, s => s
  | n + 1, c :: t =>
    match run (engineFuel (c :: t)) pat (c :: t) (fun rest => some rest) with
    | some rest =>
      if rest.length < t.length + 1 then repl ++ subAux pat repl n rest
      else repl ++ c :: subAux pat repl n t
    | none => c :: subAux pat repl n t

/-- `re.sub(pat, repl, s)` on strings. -/
def pySub (pat : RE) (repl : String) (s : String) : String :=
  ⟨subAux pat repl.data s.data.length s.data⟩

/-- The two fence-stripping substitutions of `extract_sql_from_response`:
`re.sub(r'```sql\s*', '', text, flags=re.IGNORECASE)` followed by
`re.sub(r'```\s*', '', text)`. -/
def stripFences (text : String) : String :=
  pySub (RE.cat (exLit "```") (RE.starG wsCls)) ""
    (pySub (RE.cat (ciLit "```sql") (RE.starG wsCls)) "" text)

/-- Concatenation of a list of patterns. -/
def cats (l : List RE) : RE :=
  l.foldr RE.cat RE.eps

/-- `;` -/
def semiCls : RE := RE.cls (fun c => c == ';')

/-- Capturing group of pattern 1:
`(SELECT\s+[^;]*FROM\s+employees[^;]*(?:WHERE[^;]*)?)` (the trailing `;?`
of the pattern is outside the group). -/
def pat1Group : RE :=
  cats [ciLit "SELECT", wsPlus, RE.starG notSemi, ciLit "FROM", wsPlus,
    ciLit "employees", RE.starG notSemi,
    opt (RE.cat (ciLit "WHERE") (RE.starG notSemi))]

/-- Capturing group of pattern 2:
`(SELECT\s+\*\s+FROM\s+employees(?:\s+WHERE[^;]*)?)`. -/
def pat2Group : RE :=
  cats [ciLit "SELECT", wsPlus, RE.cls (fun c => c == '*'), wsPlus,
    ciLit "FROM", wsPlus, ciLit "employees",
    opt (cats [wsPlus, ciLit "WHERE", RE.starG notSemi])]

/-- Capturing group of pattern 3: `(SELECT[^;]+;)`. -/
def pat3Group : RE :=
  cats [ciLit "SELECT", notSemi, RE.starG notSemi, semiCls]

/-- Capturing group of pattern 4: `(SELECT.*?)` (under `re.DOTALL`), whose
uncaptured suffix is `(?:\n|$)`. -/
def pat4Group : RE :=
  RE.cat (ciLit "SELECT") (RE.starL anyChar)

/-- The ordered extraction cascade `sql_patterns`, each entry a capturing
group with its uncaptured suffix. -/
def sql_patterns : List (RE × RE) :=
  [(pat1Group, opt semiCls),
   (pat2Group, opt semiCls),
   (pat3Group, RE.eps),
   (pat4Group, RE.alt (RE.cls (fun c => c == '\n')) endAnchor)]

/-- The body of the `for pattern in sql_patterns` loop for one pattern:
if `re.findall` produces a match, strip it, normalize whitespace, strip
trailing semicolons and validate; a validated statement is returned with a
single `;` re-appended, otherwise the loop moves on (`none`). -/
def tryPattern (p : RE × RE) (text : String) : Option String :=
  match findFirst p.1 p.2 text with
  | none => none
  | some m =>
    let sql_query := normWs (pyStrip m)
    let sql_query := rstripSemi sql_query
    if pyStartsWith (pyUpper sql_query) "SELECT" &&
        pyIn "FROM employees" (pyUpper sql_query) then
      some (sql_query ++ ";")
    else none

/-- The `for pattern in sql_patterns` loop: first pattern whose match
validates wins. -/
def firstValidated : List (RE × RE) → String → Option String
  | [], _ => none
  | p :: ps, text =>
    match tryPattern p text with
    | some r => some r
    | none => firstValidated ps text

/-- `extract_sql_from_response` from `src/main.py`: strip markdown fences,
then try the four extraction patterns in order; `none` embeds the final
`raise Exception("Could not extract valid SQL from response: ...")`. -/
def extract_sql_from_response (response_text : String) : Option String :=
  firstValidated sql_patterns (stripFences response_text)

/-- `generate_sql_query` from `src/main.py`.  The Groq chat-completion call
is an external collaborator, passed in as its outcome `modelResult`:
`none` when `client.chat.completions.create(...)` (or reading the choice)
raises, `some r` when it yields response content `r`.  The `try/except`
catches every exception of the block — a failed call and a failed
extraction both land in the fallback branch, so the function itself never
raises: it always returns the value of `extract_sql_from_response` or of
`generate_fallback_query` (Lean type `Option String`, where `none` is the
Python `None` value the fallback can produce, not an exception). -/
def generate_sql_query (modelResult : Option String) (natural_language_query : String) :
    Option String :=
  match modelResult with
  | none => generate_fallback_query natural_language_query
  | some content =>
    let response_text := pyStrip content
    match extract_sql_from_response response_text with
    | some sql_query => some sql_query
    | none => generate_fallback_query natural_language_query

/-- A result row: the `dict(zip(columns, row))` mapping built by
`execute_query`, column name to displayed value. -/
def Row := List (String × String)

/-- The dictionary `execute_query` returns. -/
structure ExecResult where
  sql_query : String
  results : List Row
  count : Nat

/-- `execute_query` from `src/main.py`.  The database (connection plus
cursor) is the external collaborator `db`; its `Except.error` covers both a
failed connection and a failed statement, each surfaced as an
`HTTPException` with status 500 (modelled as a `(code, detail)` pair).  The
`sql` argument is an `Option String` because the caller can hand it the
Python `None` produced by the fallback engine's missing-return branch, on
which `cursor.execute` raises and the handler wraps the error. -/
def execute_query (db : String → Except String (List Row)) (sql : Option String) :
    Except (Nat × String) ExecResult :=
  match sql with
  | none => Except.error (500, "Query execution failed")
  | some s =>
    match db s with
    | Except.ok rows => Except.ok ⟨s, rows, rows.length⟩
    | Except.error e => Except.error (500, "Query execution failed: " ++ e)

/-- The success body the `/query` endpoint returns. -/
structure QuerySuccess where
  natural_query : String
  generated_sql : String
  data : List Row
  count : Nat

/-- `process_query` from `src/main.py`, the `POST /query` handler: generate
SQL from the natural-language query, execute it, and shape the response;
an `HTTPException` raised by execution is re-raised unchanged. -/
def process_query (modelResult : Option String) (db : String → Except String (List Row))
    (query : String) : Except (Nat × String) QuerySuccess :=
  match execute_query db (generate_sql_query modelResult query) with
  | Except.ok r => Except.ok ⟨query, r.sql_query, r.results, r.count⟩
  | Except.error e => Except.error e

/-- Modelled from the spec: the request-body validation of `POST /query`
performed by the framework outside `src/main.py` on the declared model
`class QueryRequest(BaseModel): query: str` — a body with the `query` field
missing is rejected with a validation error before the handler runs, while
a present string (the empty string included) is passed through. -/
def parseQueryBody (body : Option String) : Except (Nat × String) String :=
  match body with
  | none => Except.error (422, "field required: query")
  | some q => Except.ok q

/-! ### Helper lemmas: the validation step of `extract_sql_from_response`
can never succeed, because its needle `'FROM employees'` holds lower-case
letters while the haystack has been upper-cased. -/

/-- Every character of a prefix occurrence belongs to the haystack. -/
theorem charStartsWith_subset : ∀ (nd hay : List Char), charStartsWith hay nd = true →
    ∀ c ∈ nd, c ∈ hay := by
  intro nd
  induction nd with
  | nil => intro hay _ c hc; exact absurd hc (List.not_mem_nil c)
  | cons b bs ih =>
    intro hay h c hc
    cases hay with
    | nil => simp [charStartsWith] at h
    | cons a as =>
      simp only [charStartsWith, Bool.and_eq_true, beq_iff_eq] at h
      rcases List.mem_cons.mp hc with h1 | h1
      · rw [h1, ← h.1]; exact List.mem_cons_self a as
      · exact List.mem_cons_of_mem _ (ih as h.2 c h1)

/-- Every character of a substring occurrence belongs to the haystack. -/
theorem charContains_subset : ∀ (hay nd : List Char), charContains hay nd = true →
    ∀ c ∈ nd, c ∈ hay := by
  intro hay
  induction hay with
  | nil =>
    intro nd h c hc
    simp only [charContains, List.isEmpty_iff] at h
    subst h; exact absurd hc (List.not_mem_nil c)
  | cons a as ih =>
    intro nd h c hc
    rcases Bool.or_eq_true_iff.mp h with h1 | h1
    · exact charStartsWith_subset nd (a :: as) h1 c hc
    · exact List.mem_cons_of_mem _ (ih nd h1 c hc)

/-- Upper-casing never produces the letter `e`. -/
theorem pyUpperChar_ne_e (c : Char) : pyUpperChar c ≠ 'e' := by
  unfold pyUpperChar
  split
  case isTrue h =>
    intro heq
    have h65 : 65 ≤ c.toNat - 32 := by omega
    have h90 : c.toNat - 32 ≤ 90 := by omega
    set m := c.toNat - 32 with hm
    interval_cases m <;> exact absurd heq (by decide)
  case isFalse h =>
    intro heq
    rw [heq] at h
    exact h (by decide)

/-- The mixed-case needle `'FROM employees'` is never a substring of an
upper-cased string: its letter `e` cannot appear there. -/
theorem pyIn_FROM_employees_upper_false (s : String) :
    pyIn "FROM employees" (pyUpper s) = false := by
  by_contra h
  have h' : charContains (pyUpper s).data ("FROM employees").data = true :=
    eq_true_of_ne_false h
  have he : 'e' ∈ (pyUpper s).data := charContains_subset _ _ h' 'e' (by decide)
  have he' : 'e' ∈ s.data.map pyUpperChar := he
  rcases List.mem_map.mp he' with ⟨c, _, hc⟩
  exact pyUpperChar_ne_e c hc

/-- No candidate of any extraction pattern survives validation. -/
theorem tryPattern_eq_none (p : RE × RE) (t : String) : tryPattern p t = none := by
  unfold tryPattern
  cases findFirst p.1 p.2 t with
  | none => rfl
  | some m =>
    have hv : pyIn "FROM employees" (pyUpper (rstripSemi (normWs (pyStrip m)))) = false :=
      pyIn_FROM_employees_upper_false _
    simp [hv]

/-- `extract_sql_from_response` raises on every response text. -/
theorem extract_always_fails (t : String) : extract_sql_from_response t = none := by
  unfold extract_sql_from_response
  generalize stripFences t = text
  induction sql_patterns with
  | nil => rfl
  | cons p ps ih => simp [firstValidated, tryPattern_eq_none, ih]

/-! ### The claims -/

/-- C1: the Fallback Rule Engine is claimed total — a non-empty `SELECT ...
FROM employees ...;` string for every input.  The code violates this: on an
input that selects the `"more than"`/`"years"` branch but holds no digit
run, the branch body has no `return`, so the Python function yields `None`
(embedded as `none`) instead of a SQL string.  This theorem evaluates the
engine at such a failing input. -/
theorem fallback_more_than_without_number_returns_none :
    generate_fallback_query "more than ten years" = none := by decide

/-- C2: extraction is claimed to return exactly `SELECT * FROM employees;`
for a model response wrapping that statement in markdown fences.  The code
instead raises: its validation tests the mixed-case needle
`'FROM employees'` against the upper-cased candidate, which can never
succeed, so every pattern's candidate is rejected and the final `raise` is
reached.  This theorem evaluates the extraction at exactly that fenced
response (`none` embeds the raise). -/
theorem extract_fenced_select_raises :
    extract_sql_from_response "```sql\nSELECT * FROM employees;\n```" = none :=
  extract_always_fails _

/-- C3: synthesis degradation is invisible — whenever the model call raises
(`modelResult = none`) or extraction signals failure on the response,
`generate_sql_query` returns `generate_fallback_query` of the same input;
the embedded function is total, so no exception reaches the caller. -/
theorem generate_sql_query_degrades_to_fallback (modelResult : Option String) (q : String)
    (h : modelResult = none ∨ ∃ r, modelResult = some r ∧
      extract_sql_from_response (pyStrip r) = none) :
    generate_sql_query modelResult q = generate_fallback_query q := by
  rcases h with h | ⟨r, hr, he⟩
  · rw [h]; rfl
  · rw [hr]; simp [generate_sql_query, he]

/-- Witness for C3: with the model call failing, the synthesizer returns
the fallback's answer. -/
theorem generate_sql_query_degrades_to_fallback_witness :
    generate_sql_query none "python" = generate_fallback_query "python" :=
  generate_sql_query_degrades_to_fallback none "python" (Or.inl rfl)

/-- C4: the success branch of extraction is unreachable — the validation
`'FROM employees' in sql_query.upper()` compares a mixed-case needle with
an upper-cased haystack, so `extract_sql_from_response` signals failure on
every response text, and consequently `generate_sql_query` equals
`generate_fallback_query` on every input whatever the model returns. -/
theorem extraction_success_unreachable :
    (∀ r : String, extract_sql_from_response r = none) ∧
    ∀ (m : Option String) (q : String),
      generate_sql_query m q = generate_fallback_query q := by
  refine ⟨extract_always_fails, ?_⟩
  intro m q
  cases m with
  | none => rfl
  | some r => simp [generate_sql_query, extract_always_fails]

/-- Counterexample to C5 as stated: not every input containing
`"javascript"` routes to the JavaScript rule — the earlier `sql` rule wins
on `"sql and javascript skills"`, which yields the SQL template, not the
JavaScript one. -/
theorem javascript_routing_counterexample :
    generate_fallback_query "sql and javascript skills" =
      some "SELECT * FROM employees WHERE skills ILIKE '%SQL%';" ∧
    generate_fallback_query "sql and javascript skills" ≠
      some "SELECT * FROM employees WHERE skills ILIKE '%JavaScript%';" :=
  ⟨by decide, by decide⟩

/-- C5 (amended): for every input containing `"javascript"`
(case-insensitive) that does not satisfy the earlier sql rule (`"sql"`
together with one of `"skills"`, `"skill"`, `"know"`, `"with"`), the engine
returns the JavaScript ILIKE query — never the Java rule, which requires
`"javascript"` to be absent. -/
theorem javascript_rule_precedence (s : String)
    (hjs : pyIn "javascript" (pyLower s) = true)
    (hsql : (pyIn "sql" (pyLower s) &&
      (pyIn "skills" (pyLower s) || pyIn "skill" (pyLower s) ||
       pyIn "know" (pyLower s) || pyIn "with" (pyLower s))) = false) :
    generate_fallback_query s =
      some "SELECT * FROM employees WHERE skills ILIKE '%JavaScript%';" := by
  unfold generate_fallback_query
  simp [hjs, hsql]

/-- Witness for C5 (amended): `"javascript developer"` yields the
JavaScript ILIKE query. -/
theorem javascript_rule_precedence_witness :
    generate_fallback_query "javascript developer" =
      some "SELECT * FROM employees WHERE skills ILIKE '%JavaScript%';" :=
  javascript_rule_precedence "javascript developer" (by decide) (by decide)

/-- C6: an input containing `"java"` but not `"javascript"`
(case-insensitive) that matches no earlier rule (the sql rule; the
all-employees rule cannot fire because `"java"` is one of its excluded
skill keywords) yields the whole-token Java query that excludes JavaScript
matches. -/
theorem java_not_javascript_rule (s : String)
    (hj : pyIn "java" (pyLower s) = true)
    (hjs : pyIn "javascript" (pyLower s) = false)
    (hsql : (pyIn "sql" (pyLower s) &&
      (pyIn "skills" (pyLower s) || pyIn "skill" (pyLower s) ||
       pyIn "know" (pyLower s) || pyIn "with" (pyLower s))) = false) :
    generate_fallback_query s =
      some "SELECT * FROM employees WHERE (skills ILIKE '%Java,%' OR skills ILIKE '%Java %' OR skills LIKE '%Java' OR skills LIKE 'Java%');" := by
  unfold generate_fallback_query
  simp [hj, hjs, hsql]

/-- Witness for C6: `"java developer"` fires the whole-token Java rule. -/
theorem java_not_javascript_rule_witness :
    generate_fallback_query "java developer" =
      some "SELECT * FROM employees WHERE (skills ILIKE '%Java,%' OR skills ILIKE '%Java %' OR skills LIKE '%Java' OR skills LIKE 'Java%');" :=
  java_not_javascript_rule "java developer" (by decide) (by decide) (by decide)

/-- C7: numeric extraction — `"more than 5 years experience"` yields the
`experience_years > 5` query, `"employees with 10 years and Python"` fires
the Python-plus-years rule with `experience_years > 10`, and in both cases
the number is the first maximal digit run of the original input. -/
theorem numeric_extraction_rules :
    generate_fallback_query "more than 5 years experience" =
      some "SELECT * FROM employees WHERE experience_years > 5;" ∧
    generate_fallback_query "employees with 10 years and Python" =
      some "SELECT * FROM employees WHERE skills ILIKE '%Python%' AND experience_years > 10;" ∧
    firstNumber "more than 5 years experience" = some "5" ∧
    firstNumber "employees with 10 years and Python" = some "10" :=
  ⟨by decide, by decide, by decide, by decide⟩

/-- C8: `"show all employees"` hits the show-all rule and
`"xyz unrelated gibberish"` falls through every rule to the final default;
both yield `SELECT * FROM employees;`. -/
theorem default_and_show_all_rules :
    generate_fallback_query "show all employees" = some "SELECT * FROM employees;" ∧
    generate_fallback_query "xyz unrelated gibberish" = some "SELECT * FROM employees;" :=
  ⟨by decide, by decide⟩

/-- Counterexample to C9 as stated: a request whose `query` field is the
empty string is not rejected — the handler runs synthesis (which resolves
to the fallback default) and execution, and answers with a success
response, so no input error is surfaced before synthesis. -/
theorem empty_query_no_input_error :
    process_query none (fun _ => Except.ok ([] : List Row)) "" =
      Except.ok ⟨"", "SELECT * FROM employees;", [], 0⟩ := by
  rfl

/-- C9 (amended): a request body with the `query` field missing is rejected
by the framework's model validation before the handler runs, while an
empty-string `query` is passed through to synthesis and yields the default
fallback query, which is then executed. -/
theorem query_field_validation_amended (db : String → Except String (List Row))
    (rows : List Row) (h : db "SELECT * FROM employees;" = Except.ok rows) :
    parseQueryBody none = Except.error (422, "field required: query") ∧
    process_query none db "" =
      Except.ok ⟨"", "SELECT * FROM employees;", rows, rows.length⟩ := by
  refine ⟨rfl, ?_⟩
  have hf : generate_sql_query none "" = some "SELECT * FROM employees;" := by decide
  unfold process_query
  rw [hf]
  simp [execute_query, h]

/-- Witness for C9 (amended): instantiated at a database returning no
rows. -/
theorem query_field_validation_amended_witness :
    parseQueryBody none = Except.error (422, "field required: query") ∧
    process_query none (fun _ => Except.ok ([] : List Row)) "" =
      Except.ok ⟨"", "SELECT * FROM employees;", [], 0⟩ :=
  query_field_validation_amended (fun _ => Except.ok []) [] rfl

/-- C10: injection invariant of the fallback — every string the engine
returns is one of its six fixed templates, or one of the two
`experience_years > _` templates in which the only input-derived content is
the first maximal digit run of the input. -/
theorem fallback_injection_invariant (s out : String)
    (h : generate_fallback_query s = some out) :
    out ∈ ["SELECT * FROM employees;",
           "SELECT * FROM employees WHERE skills ILIKE '%SQL%';",
           "SELECT * FROM employees WHERE skills ILIKE '%JavaScript%';",
           "SELECT * FROM employees WHERE (skills ILIKE '%Java,%' OR skills ILIKE '%Java %' OR skills LIKE '%Java' OR skills LIKE 'Java%');",
           "SELECT * FROM employees WHERE skills ILIKE '%Python%';",
           "SELECT * FROM employees WHERE skills ILIKE '%AWS%';"] ∨
    (∃ years, firstNumber s = some years ∧
      (out = "SELECT * FROM employees WHERE skills ILIKE '%Python%' AND experience_years > " ++ years ++ ";" ∨
       out = "SELECT * FROM employees WHERE experience_years > " ++ years ++ ";")) := by
  unfold generate_fallback_query at h
  simp only [] at h
  repeat' split at h
  all_goals first
    | exact Option.noConfusion h
    | (injection h with h; subst h; left; decide)
    | (injection h with h; subst h; right; refine ⟨_, ?_, Or.inl rfl⟩; assumption)
    | (injection h with h; subst h; right; refine ⟨_, ?_, Or.inr rfl⟩; assumption)

/-- Witness for C10: the Python-plus-years rule at `"python 7 years"`
produces the Python template with the extracted digit run `7`. -/
theorem fallback_injection_invariant_witness :
    "SELECT * FROM employees WHERE skills ILIKE '%Python%' AND experience_years > 7;" ∈
      ["SELECT * FROM employees;",
       "SELECT * FROM employees WHERE skills ILIKE '%SQL%';",
       "SELECT * FROM employees WHERE skills ILIKE '%JavaScript%';",
       "SELECT * FROM employees WHERE (skills ILIKE '%Java,%' OR skills ILIKE '%Java %' OR skills LIKE '%Java' OR skills LIKE 'Java%');",
       "SELECT * FROM employees WHERE skills ILIKE '%Python%';",
       "SELECT * FROM employees WHERE skills ILIKE '%AWS%';"] ∨
    (∃ years, firstNumber "python 7 years" = some years ∧
      ("SELECT * FROM employees WHERE skills ILIKE '%Python%' AND experience_years > 7;" =
        "SELECT * FROM employees WHERE skills ILIKE '%Python%' AND experience_years > " ++ years ++ ";" ∨
       "SELECT * FROM employees WHERE skills ILIKE '%Python%' AND experience_years > 7;" =
        "SELECT * FROM employees WHERE experience_years > " ++ years ++ ";")) :=
  fallback_injection_invariant "python 7 years" _ (by decide)

end SmartFinder
